import Mathlib

/-!
Shallow embedding of the retry / error-classification / authenticated-API
subsystem of the TripXplo travel-assistant repository.

Sources embedded:
  - `src/lib/utils/errors.ts` : `ErrorCode`, `AppError`, `handleError`
  - the retry module (`withRetry`, `RetryError`) referenced from
    `src/lib/ai/prompts.ts`
  - `src/lib/api/tripxplo.ts` : token cache, `getAccessToken`,
    `makeAuthenticatedRequest`, `getPackages`

JavaScript strings are Lean `String`s, timestamps and delays are `Nat`
milliseconds, thrown errors are `Except.error` values, and the module-level
mutable token cache is threaded explicitly as a `TokenState` value.
-/

/-- Containment of `needle` as a contiguous run inside the second list. -/
def listContains (needle : List Char) : List Char → Bool
  | [] => needle.isEmpty
  | c :: rest => needle.isPrefixOf (c :: rest) || listContains needle rest

/-- JS `s.includes(sub)` : substring containment test on strings. -/
def strIncludes (s sub : String) : Bool :=
  listContains sub.toList s.toList

/-- Scanner for the JS regex test `/5\d\d/.test(s)` on a character list:
true iff some position starts with the digit 5 followed by two digits. -/
def hasFiveXX : List Char → Bool
  | c :: a :: b :: rest =>
      ((c == '5') && a.isDigit && b.isDigit) || hasFiveXX (a :: b :: rest)
  | _ => false

/-- JS `/5\d\d/.test(s)`. -/
def regexTestFiveXX (s : String) : Bool :=
  hasFiveXX s.toList

/-- The `ErrorCode` enum of `src/lib/utils/errors.ts`. -/
inductive ErrorCode where
  | API_AUTHENTICATION_FAILED
  | API_RATE_LIMIT_EXCEEDED
  | API_REQUEST_FAILED
  | API_TIMEOUT
  | AI_MODEL_ERROR
  | AI_PROMPT_ERROR
  | AI_RESPONSE_PARSING_ERROR
  | DATA_VALIDATION_ERROR
  | DATA_NOT_FOUND
  | DATA_PROCESSING_ERROR
  | SYSTEM_CONFIGURATION_ERROR
  | SYSTEM_RESOURCE_ERROR
  | USER_INPUT_INVALID
  | USER_UNAUTHORIZED
deriving DecidableEq, Repr

/-- The `AppError` class of `src/lib/utils/errors.ts`: code, message,
HTTP-equivalent status code and the operational flag.  The free-form
`context` record and the captured stack are logging payload not inspected by
any claim and are not carried in the model. -/
structure AppError where
  code : ErrorCode
  message : String
  statusCode : Nat
  isOperational : Bool
deriving DecidableEq, Repr

/-- The `APIError` subclass constructor: an `AppError` with
`isOperational = true`. -/
def APIError (code : ErrorCode) (message : String) (statusCode : Nat) : AppError :=
  { code := code, message := message, statusCode := statusCode, isOperational := true }

/-- The `unknown` input of `handleError`: an `AppError` instance, a plain JS
`Error` (carrying its message), or any non-`Error` value (carrying its
stringification). -/
inductive RawError where
  | appError (e : AppError)
  | jsError (message : String)
  | nonError (stringified : String)
deriving DecidableEq, Repr

/-- `handleError` of `src/lib/utils/errors.ts` (lines 79-140): identity on
`AppError`s; for `Error`s, substring classification in source order
(`"fetch"`, then `"timeout"`, then `"401"`/`"unauthorized"`, then
`"429"`/`"rate limit"`, then the generic 500 fallback); non-`Error` inputs
map to a non-operational generic 500. -/
def handleError (error : RawError) : AppError :=
  match error with
  | RawError.appError e => e
  | RawError.jsError msg =>
      if strIncludes msg "fetch" then
        APIError ErrorCode.API_REQUEST_FAILED ("Network request failed: " ++ msg) 503
      else if strIncludes msg "timeout" then
        APIError ErrorCode.API_TIMEOUT ("Request timeout: " ++ msg) 408
      else if strIncludes msg "401" || strIncludes msg "unauthorized" then
        APIError ErrorCode.API_AUTHENTICATION_FAILED ("Authentication failed: " ++ msg) 401
      else if strIncludes msg "429" || strIncludes msg "rate limit" then
        APIError ErrorCode.API_RATE_LIMIT_EXCEEDED ("Rate limit exceeded: " ++ msg) 429
      else
        { code := ErrorCode.SYSTEM_RESOURCE_ERROR, message := msg,
          statusCode := 500, isOperational := true }
  | RawError.nonError _ =>
      { code := ErrorCode.SYSTEM_RESOURCE_ERROR, message := "An unknown error occurred",
        statusCode := 500, isOperational := false }

/-- The `RetryError` thrown by `withRetry`: the `attempts` field and the
wrapped `lastError`.  `lastError` is an `Option` because the source reads
`lastError!` which is `undefined` when the loop body never ran
(`maxAttempts = 0`). -/
structure RetryError (ε : Type) where
  attempts : Nat
  lastError : Option ε
deriving DecidableEq, Repr

deriving instance DecidableEq for Except

/-- The observable outcome of one `withRetry` call: the returned value or the
thrown `RetryError`, the final value of any state the operation mutates, the
number of times the operation was invoked, and the backoff delays slept, in
order. -/
structure RetryOutcome (σ α ε : Type) where
  result : Except (RetryError ε) α
  finalState : σ
  calls : Nat
  delays : List Nat
deriving DecidableEq, Repr

/-- The `for (let attempt = 1; attempt <= maxAttempts; attempt++)` loop of
`withRetry`.  `left` is the number of loop iterations still allowed
(`maxAttempts - attempt + 1` at every reachable call), which makes the
recursion structural.  On success the result is returned at once; on failure,
if the attempt is the last one or the retry predicate rejects the error the
loop breaks and the trailing `throw new RetryError(..., maxAttempts,
lastError)` fires; otherwise `min(baseDelay * backoffMultiplier^(attempt-1),
maxDelay)` is slept and the loop continues. -/
def withRetryGo (op : Nat → σ → σ × Except ε α) (cond : ε → Bool)
    (maxAttempts baseDelay maxDelay backoffMultiplier : Nat) :
    Nat → Nat → σ → Option ε → Nat → List Nat → RetryOutcome σ α ε
  | 0, _, st, lastErr, calls, delays =>
      { result := Except.error { attempts := maxAttempts, lastError := lastErr },
        finalState := st, calls := calls, delays := delays }
  | left + 1, attempt, st, _, calls, delays =>
      match op attempt st with
      | (st', Except.ok v) =>
          { result := Except.ok v, finalState := st', calls := calls + 1, delays := delays }
      | (st', Except.error e) =>
          if attempt == maxAttempts || !cond e then
            { result := Except.error { attempts := maxAttempts, lastError := some e },
              finalState := st', calls := calls + 1, delays := delays }
          else
            withRetryGo op cond maxAttempts baseDelay maxDelay backoffMultiplier
              left (attempt + 1) st' (some e) (calls + 1)
              (delays ++ [min (baseDelay * backoffMultiplier ^ (attempt - 1)) maxDelay])

/-- `withRetry` of the retry module: run `op` (given the 1-based attempt
number and the current mutable state) up to `maxAttempts` times. -/
def withRetry (op : Nat → σ → σ × Except ε α) (cond : ε → Bool)
    (maxAttempts baseDelay maxDelay backoffMultiplier : Nat) (st : σ) :
    RetryOutcome σ α ε :=
  withRetryGo op cond maxAttempts baseDelay maxDelay backoffMultiplier
    maxAttempts 1 st none 0 []

/-- `withRetry` for an operation that touches no mutable state. -/
def withRetryPure (op : Nat → Except ε α) (cond : ε → Bool)
    (maxAttempts baseDelay maxDelay backoffMultiplier : Nat) :
    RetryOutcome Unit α ε :=
  withRetry (fun i u => (u, op i)) cond maxAttempts baseDelay maxDelay backoffMultiplier ()

/-- The exponential-backoff delay schedule: `n` successive delays starting
from attempt number `attempt`, each `min(baseDelay *
backoffMultiplier^(attempt-1), maxDelay)`. -/
def backoffDelays (baseDelay maxDelay backoffMultiplier : Nat) (attempt : Nat) : Nat → List Nat
  | 0 => []
  | n + 1 =>
      min (baseDelay * backoffMultiplier ^ (attempt - 1)) maxDelay ::
        backoffDelays baseDelay maxDelay backoffMultiplier (attempt + 1) n

/-- A JS error value thrown inside the API client: either an `AppError`
instance or a plain `Error` carrying only a message. -/
inductive JsErr where
  | app (e : AppError)
  | plain (message : String)
deriving DecidableEq, Repr

/-- The `.message` property of a thrown JS error. -/
def JsErr.msg : JsErr → String
  | JsErr.app e => e.message
  | JsErr.plain m => m

/-- The message of the `RetryError` thrown by `withRetry`:
`Operation failed after N attempts: <last error message>` with
`N = maxAttempts` (the `attempts` field). -/
def retryErrorMessage (msgOf : ε → String) (re : RetryError ε) : String :=
  "Operation failed after " ++ toString re.attempts ++ " attempts: " ++
    (match re.lastError with
     | some e => msgOf e
     | none => "undefined")

/-- `API_CONFIG.retryOptions.retryCondition` of `src/lib/api/tripxplo.ts`
(lines 27-36), a predicate on the error message: network wording or an
embedded 5xx status, excluding messages mentioning 401 or 403. -/
def apiRetryCondition (m : String) : Bool :=
  (strIncludes m "fetch" || strIncludes m "timeout" || strIncludes m "ECONNRESET" ||
    strIncludes m "ENOTFOUND" || (strIncludes m "status" && regexTestFiveXX m)) &&
  !strIncludes m "401" && !strIncludes m "403"

/-- The per-call override used by `getAccessToken` (lines 114-118): the
client condition, additionally refusing to retry messages mentioning
`Authentication failed`. -/
def loginRetryCondition (e : JsErr) : Bool :=
  apiRetryCondition e.msg && !strIncludes e.msg "Authentication failed"

/-- The module-level mutable token cache of `src/lib/api/tripxplo.ts`:
`let cachedToken: string | null = null; let tokenExpiry: number = 0`. -/
structure TokenState where
  cachedToken : Option String
  tokenExpiry : Nat
deriving DecidableEq, Repr

/-- JS truthiness of the `string | null` token: non-null and non-empty. -/
def tokenTruthy : Option String → Bool
  | some t => !(t == "")
  | none => false

/-- An HTTP response as the client observes it: the status code and, for the
login endpoint, the `accessToken` field of the JSON body (`none` when the
field is absent). -/
structure HttpResp where
  status : Nat
  accessToken : Option String
deriving DecidableEq, Repr

/-- The zero-argument operation passed to `withRetry` by `getAccessToken`
(lines 72-111): one login `fetch`, modelled by the per-attempt response
oracle `resp`.  `response.ok` is status 200-299; 401/403 raise the
credentials `AppError`; any other failure raises a plain
`Login failed with status: N` error. -/
def loginOp (resp : Nat → HttpResp) (attempt : Nat) : Except JsErr HttpResp :=
  let r := resp attempt
  if 200 ≤ r.status ∧ r.status < 300 then
    Except.ok r
  else if r.status == 401 || r.status == 403 then
    Except.error (JsErr.app
      { code := ErrorCode.API_AUTHENTICATION_FAILED,
        message := "Authentication failed: Invalid credentials (" ++ toString r.status ++ ")",
        statusCode := r.status, isOperational := true })
  else
    Except.error (JsErr.plain ("Login failed with status: " ++ toString r.status))

/-- The observable outcome of one `getAccessToken()` call: the returned token
or thrown `AppError`, the token cache afterwards, and how many times the
login HTTP operation was invoked. -/
structure TokenResult where
  result : Except AppError String
  state : TokenState
  loginCalls : Nat
deriving DecidableEq, Repr

/-- `getAccessToken` of `src/lib/api/tripxplo.ts` (lines 40-161).  A truthy
cached token whose expiry is still in the future is returned with no network
call; otherwise, after the credentials check, the login is performed under
`withRetry` (maxAttempts 3, baseDelay 1000, maxDelay 8000, multiplier 2, the
auth-excluding predicate); on success the token is cached with expiry
`now + 3600000` (the expiry is written before the token-presence check, as in
the source); a missing/empty token raises the defensive `AppError`; a
`RetryError` escaping `withRetry` is not an `AppError` and is classified by
`handleError` on its message in the catch block. -/
def getAccessToken (st : TokenState) (now : Nat) (credsPresent : Bool)
    (resp : Nat → HttpResp) : TokenResult :=
  if tokenTruthy st.cachedToken && decide (now < st.tokenExpiry) then
    { result := Except.ok (st.cachedToken.getD ""), state := st, loginCalls := 0 }
  else if !credsPresent then
    { result := Except.error
        { code := ErrorCode.SYSTEM_CONFIGURATION_ERROR,
          message := "TripXplo API credentials are missing from environment variables",
          statusCode := 500, isOperational := true },
      state := st, loginCalls := 0 }
  else
    let out := withRetryPure (loginOp resp) loginRetryCondition 3 1000 8000 2
    match out.result with
    | Except.ok r =>
        let st' : TokenState :=
          { cachedToken := r.accessToken, tokenExpiry := now + 3600000 }
        if !tokenTruthy r.accessToken then
          { result := Except.error
              { code := ErrorCode.API_AUTHENTICATION_FAILED,
                message := "No access token received from TripXplo API",
                statusCode := 500, isOperational := true },
            state := st', loginCalls := out.calls }
        else
          { result := Except.ok (r.accessToken.getD ""), state := st', loginCalls := out.calls }
    | Except.error re =>
        { result := Except.error
            (handleError (RawError.jsError (retryErrorMessage JsErr.msg re))),
          state := st, loginCalls := out.calls }

/-- The operation passed to `withRetry` by `makeAuthenticatedRequest`
(lines 175-228): one authenticated `fetch`, modelled by a per-attempt status
oracle.  Status 401 clears the module token cache and raises the
authentication `AppError`; 429 raises the rate-limit `AppError`; any other
non-2xx raises a plain `API request failed with status: N` error. -/
def apiOp (resp : Nat → Nat) (attempt : Nat) (st : TokenState) :
    TokenState × Except JsErr Nat :=
  let status := resp attempt
  if 200 ≤ status ∧ status < 300 then
    (st, Except.ok status)
  else if status == 401 then
    ({ cachedToken := none, tokenExpiry := 0 },
      Except.error (JsErr.app
        { code := ErrorCode.API_AUTHENTICATION_FAILED,
          message := "Authentication token expired or invalid",
          statusCode := 401, isOperational := true }))
  else if status == 429 then
    (st, Except.error (JsErr.app
      { code := ErrorCode.API_RATE_LIMIT_EXCEEDED,
        message := "API rate limit exceeded",
        statusCode := 429, isOperational := true }))
  else
    (st, Except.error (JsErr.plain ("API request failed with status: " ++ toString status)))

/-- `makeAuthenticatedRequest` of `src/lib/api/tripxplo.ts` (lines 163-235):
the request is wrapped in `withRetry` with `API_CONFIG.retryOptions`
(maxAttempts 3, baseDelay 1000, maxDelay 8000, multiplier 2, the client
retry predicate).  The bearer token obtained beforehand does not influence
the modelled response oracle. -/
def makeAuthenticatedRequest (resp : Nat → Nat) (st : TokenState) :
    RetryOutcome TokenState Nat JsErr :=
  withRetry (apiOp resp) (fun e => apiRetryCondition e.msg) 3 1000 8000 2 st

/-- The `while (true)` pagination loop of `getPackages` (lines 252-281):
request the batch at `offset`; an empty batch ends the loop without
appending; a short batch (fewer than `limit` items) is appended and ends the
loop; a full batch is appended and the loop continues at `offset + limit`.
`fuel` bounds the iteration count so the recursion is structural; `none`
means the fuel was exhausted before a short page arrived. -/
def getPackagesLoop (pages : Nat → List α) (limit : Nat) :
    Nat → Nat → List α → Nat → Option (List α × Nat)
  | 0, _, _, _ => none
  | fuel + 1, offset, acc, calls =>
      let packages := pages offset
      if packages.length == 0 then
        some (acc, calls + 1)
      else if packages.length < limit then
        some (acc ++ packages, calls + 1)
      else
        getPackagesLoop pages limit fuel (offset + limit) (acc ++ packages) (calls + 1)

/-- `getPackages` of `src/lib/api/tripxplo.ts` (lines 237-310): paginate from
offset 0 with the fixed page size `limit = 270`, accumulating every returned
item; the pair returned is (all accumulated items, number of page requests
made). -/
def getPackages (pages : Nat → List α) (fuel : Nat) : Option (List α × Nat) :=
  getPackagesLoop pages 270 fuel 0 [] 0

/-- The expected accumulation of `k` successive pages starting at page index
`i` (page `j` is served at offset `270 * j`), concatenated in request
order. -/
def pageConcat (pages : Nat → List α) (i : Nat) : Nat → List α
  | 0 => []
  | k + 1 => pages (270 * i) ++ pageConcat pages (i + 1) k

/-- Trace of the retry loop over an operation that fails on every attempt
with an error the predicate accepts: the loop runs all `left` remaining
attempts, the thrown `RetryError` carries `maxAttempts` and the final
attempt's error, and the slept delays follow the backoff schedule. -/
lemma withRetryGo_alwaysFail {α ε : Type} (op : Nat → Except ε α) (cond : ε → Bool)
    (maxA base maxD mult : Nat)
    (hfail : ∀ i, ∃ e, op i = Except.error e)
    (hcond : ∀ i e, op i = Except.error e → cond e = true) :
    ∀ left attempt (lastErr : Option ε) (calls : Nat) (delays : List Nat),
      attempt + left = maxA + 1 → 1 ≤ attempt → 1 ≤ left →
      ∃ eN, op maxA = Except.error eN ∧
        withRetryGo (fun i (u : Unit) => (u, op i)) cond maxA base maxD mult
            left attempt () lastErr calls delays
          = { result := Except.error { attempts := maxA, lastError := some eN },
              finalState := (), calls := calls + left,
              delays := delays ++ backoffDelays base maxD mult attempt (left - 1) } := by
  intro left
  induction left with
  | zero => intro attempt lastErr calls delays _ _ h; omega
  | succ n ih =>
    intro attempt lastErr calls delays hsum hatt _
    obtain ⟨e, he⟩ := hfail attempt
    rcases n with _ | m
    · -- final allowed attempt: attempt = maxA, the loop breaks and throws
      have hA : attempt = maxA := by omega
      subst hA
      refine ⟨e, he, ?_⟩
      simp [withRetryGo, he, backoffDelays]
    · -- attempt < maxA and the error is retryable: sleep and recurse
      have hne : (attempt == maxA) = false := by
        simp only [beq_eq_false_iff_ne]
        omega
      obtain ⟨eN, heN, hrec⟩ := ih (attempt + 1) (some e) (calls + 1)
        (delays ++ [min (base * mult ^ (attempt - 1)) maxD])
        (by omega) (by omega) (by omega)
      refine ⟨eN, heN, ?_⟩
      simp only [withRetryGo, he, hne, hcond attempt e he, Bool.not_true, Bool.or_false]
      rw [if_neg (by simp)]
      simp only [withRetryGo] at hrec
      rw [hrec]
      simp only [Nat.add_succ, Nat.succ_sub_one, backoffDelays, List.append_assoc,
        List.singleton_append]
      rw [RetryOutcome.mk.injEq]
      exact ⟨rfl, rfl, by omega, rfl⟩

/-- C1: with `maxAttempts = 3` and an operation that fails on every attempt
with an error the retry predicate accepts, `withRetry` invokes the operation
exactly 3 times, never returns normally, and throws a `RetryError` whose
`attempts` field is 3 and whose `lastError` is the error raised by the third
attempt. -/
theorem c1_retry_termination {α ε : Type} (op : Nat → Except ε α) (cond : ε → Bool)
    (base maxD mult : Nat)
    (hfail : ∀ i, ∃ e, op i = Except.error e)
    (hcond : ∀ i e, op i = Except.error e → cond e = true) :
    ∃ e3, op 3 = Except.error e3 ∧
      (withRetryPure op cond 3 base maxD mult).result
        = Except.error { attempts := 3, lastError := some e3 } ∧
      (withRetryPure op cond 3 base maxD mult).calls = 3 := by
  obtain ⟨e3, h3, heq⟩ := withRetryGo_alwaysFail op cond 3 base maxD mult hfail hcond
    3 1 none 0 [] (by omega) (by omega) (by omega)
  refine ⟨e3, h3, ?_, ?_⟩ <;> simp [withRetryPure, withRetry, heq]

def c1op : Nat → Except String Unit := fun _ => Except.error "boom"

theorem c1_retry_termination_witness :
    (withRetryPure c1op (fun _ => true) 3 1000 10000 2).result
      = Except.error { attempts := 3, lastError := some "boom" } ∧
    (withRetryPure c1op (fun _ => true) 3 1000 10000 2).calls = 3 := by
  obtain ⟨e3, h3, hres, hcalls⟩ := c1_retry_termination c1op (fun _ => true) 1000 10000 2
    (fun _ => ⟨"boom", rfl⟩) (fun _ _ _ => rfl)
  have he : e3 = "boom" := by simpa [c1op] using h3.symm
  subst he
  exact ⟨hres, hcalls⟩

def c2op : Nat → Except String Unit := fun _ => Except.error "bad-request"

/-- C2 counterexample: a non-retryable first failure under `maxAttempts = 3`
makes exactly 1 invocation, yet the thrown `RetryError` carries
`attempts = 3` (the configured maximum), not the true attempt count 1 that
the claim states. -/
theorem c2_counterexample :
    (withRetryPure c2op (fun _ => false) 3 1000 10000 2).calls = 1 ∧
    (withRetryPure c2op (fun _ => false) 3 1000 10000 2).result
      = Except.error { attempts := 3, lastError := some "bad-request" } ∧
    (withRetryPure c2op (fun _ => false) 3 1000 10000 2).result
      ≠ Except.error { attempts := 1, lastError := some "bad-request" } := by
  decide

/-- C2 (amended): when the retry predicate rejects the first attempt's
error, `withRetry` invokes the operation exactly once, inserts no delay, and
throws a `RetryError` wrapping that failure - but the `attempts` field of
the thrown error is `maxAttempts`, not the true attempt count 1. -/
theorem c2_nonretryable_short_circuit {α ε : Type} (op : Nat → Except ε α)
    (cond : ε → Bool) (maxA base maxD mult : Nat) (e1 : ε)
    (hmax : 1 ≤ maxA) (h1 : op 1 = Except.error e1) (hc : cond e1 = false) :
    (withRetryPure op cond maxA base maxD mult).calls = 1 ∧
    (withRetryPure op cond maxA base maxD mult).result
      = Except.error { attempts := maxA, lastError := some e1 } ∧
    (withRetryPure op cond maxA base maxD mult).delays = [] := by
  obtain ⟨m, rfl⟩ : ∃ m, maxA = m + 1 := ⟨maxA - 1, by omega⟩
  simp [withRetryPure, withRetry, withRetryGo, h1, hc]

theorem c2_nonretryable_short_circuit_witness :
    (withRetryPure c2op (fun _ => false) 3 1000 10000 2).calls = 1 ∧
    (withRetryPure c2op (fun _ => false) 3 1000 10000 2).result
      = Except.error { attempts := 3, lastError := some "bad-request" } ∧
    (withRetryPure c2op (fun _ => false) 3 1000 10000 2).delays = [] :=
  c2_nonretryable_short_circuit c2op (fun _ => false) 3 1000 10000 2 "bad-request"
    (by omega) rfl rfl

/-- Position `i` of the backoff schedule starting at attempt `a`. -/
lemma backoffDelays_get (base maxD mult : Nat) :
    ∀ n a i, 1 ≤ a → i < n →
      (backoffDelays base maxD mult a n).get? i
        = some (min (base * mult ^ (a - 1 + i)) maxD) := by
  intro n
  induction n with
  | zero => intro a i _ h; omega
  | succ m ih =>
    intro a i ha hi
    rcases i with _ | j
    · simp [backoffDelays]
    · have := ih (a + 1) j (by omega) (by omega)
      have harith : a + 1 - 1 + j = a - 1 + (j + 1) := by omega
      rw [harith] at this
      simpa [backoffDelays] using this

/-- C3: for every attempt `i ≥ 1` after which the retry loop retries, the
delay slept before attempt `i + 1` is
`min(baseDelay * backoffMultiplier^(i-1), maxDelay)`: position `i - 1` of
the recorded delay trace carries exactly that value. -/
theorem c3_backoff_growth {α ε : Type} (op : Nat → Except ε α) (cond : ε → Bool)
    (maxA base maxD mult i : Nat)
    (hfail : ∀ n, ∃ e, op n = Except.error e)
    (hcond : ∀ n e, op n = Except.error e → cond e = true)
    (hi1 : 1 ≤ i) (hi : i < maxA) :
    (withRetryPure op cond maxA base maxD mult).delays.get? (i - 1)
      = some (min (base * mult ^ (i - 1)) maxD) := by
  obtain ⟨eN, _, heq⟩ := withRetryGo_alwaysFail op cond maxA base maxD mult hfail hcond
    maxA 1 none 0 [] (by omega) (by omega) (by omega)
  have hd : (withRetryPure op cond maxA base maxD mult).delays
      = backoffDelays base maxD mult 1 (maxA - 1) := by
    simp [withRetryPure, withRetry, heq]
  rw [hd]
  have := backoffDelays_get base maxD mult (maxA - 1) 1 (i - 1) (by omega) (by omega)
  simpa using this

def c3op : Nat → Except String Unit := fun _ => Except.error "transient"

theorem c3_backoff_growth_witness :
    (withRetryPure c3op (fun _ => true) 5 1000 8000 2).delays.get? 3 = some 8000 ∧
    (withRetryPure c3op (fun _ => true) 5 1000 8000 2).delays
      = [1000, 2000, 4000, 8000] := by
  refine ⟨?_, by decide⟩
  have h := c3_backoff_growth c3op (fun _ => true) 5 1000 8000 2 4
    (fun _ => ⟨"transient", rfl⟩) (fun _ _ _ => rfl) (by omega) (by omega)
  simpa using h

/-- Every outcome of the retry loop is either the operation's returned value
or a `RetryError` whose `attempts` field is `maxAttempts`; a raw operation
error is never the final result. -/
lemma withRetryGo_result_shape {σ α ε : Type} (op : Nat → σ → σ × Except ε α)
    (cond : ε → Bool) (maxA base maxD mult : Nat) :
    ∀ left attempt (st : σ) (lastErr : Option ε) (calls : Nat) (delays : List Nat),
      (∃ v, (withRetryGo op cond maxA base maxD mult
          left attempt st lastErr calls delays).result = Except.ok v) ∨
      (∃ lastE, (withRetryGo op cond maxA base maxD mult
          left attempt st lastErr calls delays).result
        = Except.error { attempts := maxA, lastError := lastE }) := by
  intro left
  induction left with
  | zero =>
    intro attempt st lastErr calls delays
    right
    exact ⟨lastErr, rfl⟩
  | succ n ih =>
    intro attempt st lastErr calls delays
    rcases hop : op attempt st with ⟨st', r⟩
    rcases r with e | v
    · simp only [withRetryGo, hop]
      by_cases hbrk : (attempt == maxA || !cond e) = true
      · rw [if_pos hbrk]
        right
        exact ⟨some e, rfl⟩
      · rw [if_neg hbrk]
        exact ih (attempt + 1) st' (some e) (calls + 1)
          (delays ++ [min (base * mult ^ (attempt - 1)) maxD])
    · simp only [withRetryGo, hop]
      left
      exact ⟨v, rfl⟩

/-- C4: every error thrown out of `withRetry` is a `RetryError` (here: every
error outcome has the `RetryError` shape, with `attempts = maxAttempts`);
raw underlying errors only ever appear wrapped as the `lastError` of that
`RetryError`, never as the final result - including when
`maxAttempts = 1`. -/
theorem c4_only_retry_error {σ α ε : Type} (op : Nat → σ → σ × Except ε α)
    (cond : ε → Bool) (maxA base maxD mult : Nat) (st : σ) :
    (∃ v, (withRetry op cond maxA base maxD mult st).result = Except.ok v) ∨
    (∃ lastE, (withRetry op cond maxA base maxD mult st).result
      = Except.error { attempts := maxA, lastError := lastE }) :=
  withRetryGo_result_shape op cond maxA base maxD mult maxA 1 st none 0 []

/-- C5 counterexample: `handleError` has no `"ECONNRESET"` branch, so an
`Error` whose message is exactly `"ECONNRESET"` falls through every
substring check to the generic resource error with status 500 - not to
`API_REQUEST_FAILED` with status 503 as the claim states. -/
theorem c5_counterexample :
    (handleError (RawError.jsError "ECONNRESET")).code = ErrorCode.SYSTEM_RESOURCE_ERROR ∧
    (handleError (RawError.jsError "ECONNRESET")).statusCode = 500 ∧
    ¬ ((handleError (RawError.jsError "ECONNRESET")).code = ErrorCode.API_REQUEST_FAILED ∧
       (handleError (RawError.jsError "ECONNRESET")).statusCode = 503) := by
  decide

/-- C5 (amended): an `Error` whose message contains `"ECONNRESET"` but none
of the classifier substrings is classified as the generic
`SYSTEM_RESOURCE_ERROR` with status 500 (operational), not as
request-failed/503; an `Error` whose message contains `"401"` and matches no
earlier check (`"fetch"`, `"timeout"`) classifies to
`API_AUTHENTICATION_FAILED` with status 401; a non-`Error` input classifies
to `SYSTEM_RESOURCE_ERROR`, status 500, `isOperational = false`. -/
theorem c5_error_classification (m n s : String)
    (hm1 : strIncludes m "ECONNRESET" = true)
    (hm2 : strIncludes m "fetch" = false) (hm3 : strIncludes m "timeout" = false)
    (hm4 : strIncludes m "401" = false) (hm5 : strIncludes m "unauthorized" = false)
    (hm6 : strIncludes m "429" = false) (hm7 : strIncludes m "rate limit" = false)
    (hn1 : strIncludes n "401" = true)
    (hn2 : strIncludes n "fetch" = false) (hn3 : strIncludes n "timeout" = false) :
    handleError (RawError.jsError m)
      = { code := ErrorCode.SYSTEM_RESOURCE_ERROR, message := m,
          statusCode := 500, isOperational := true } ∧
    (handleError (RawError.jsError n)).code = ErrorCode.API_AUTHENTICATION_FAILED ∧
    (handleError (RawError.jsError n)).statusCode = 401 ∧
    handleError (RawError.nonError s)
      = { code := ErrorCode.SYSTEM_RESOURCE_ERROR, message := "An unknown error occurred",
          statusCode := 500, isOperational := false } := by
  refine ⟨?_, ?_, ?_, rfl⟩
  · simp [handleError, hm2, hm3, hm4, hm5, hm6, hm7]
  · simp [handleError, APIError, hn1, hn2, hn3]
  · simp [handleError, APIError, hn1, hn2, hn3]

theorem c5_error_classification_witness :
    handleError (RawError.jsError "ECONNRESET")
      = { code := ErrorCode.SYSTEM_RESOURCE_ERROR, message := "ECONNRESET",
          statusCode := 500, isOperational := true } ∧
    (handleError (RawError.jsError "401")).code = ErrorCode.API_AUTHENTICATION_FAILED ∧
    (handleError (RawError.jsError "401")).statusCode = 401 ∧
    handleError (RawError.nonError "null")
      = { code := ErrorCode.SYSTEM_RESOURCE_ERROR, message := "An unknown error occurred",
          statusCode := 500, isOperational := false } :=
  c5_error_classification "ECONNRESET" "401" "null"
    (by decide) (by decide) (by decide) (by decide) (by decide) (by decide) (by decide)
    (by decide) (by decide) (by decide)

/-- C6: `handleError` is the identity on values that are already
`AppError`s, hence idempotent classification. -/
theorem c6_idempotent_classification (e : AppError) :
    handleError (RawError.appError e) = e :=
  rfl

/-- C10: the substring checks of `handleError` apply in source order -
`"fetch"`, then `"timeout"`, then `"401"`/`"unauthorized"`, then
`"429"`/`"rate limit"` - so the earliest matching check wins; in particular
a message containing both `"fetch"` and `"401"` classifies as
`API_REQUEST_FAILED` with status 503, not as authentication-failed. -/
theorem c10_classification_order (m n p q : String)
    (hm1 : strIncludes m "fetch" = true) (hm2 : strIncludes m "401" = true)
    (hn1 : strIncludes n "fetch" = false) (hn2 : strIncludes n "timeout" = true)
    (hp1 : strIncludes p "fetch" = false) (hp2 : strIncludes p "timeout" = false)
    (hp3 : strIncludes p "401" = true ∨ strIncludes p "unauthorized" = true)
    (hq1 : strIncludes q "fetch" = false) (hq2 : strIncludes q "timeout" = false)
    (hq3 : strIncludes q "401" = false) (hq4 : strIncludes q "unauthorized" = false)
    (hq5 : strIncludes q "429" = true ∨ strIncludes q "rate limit" = true) :
    (handleError (RawError.jsError m)).code = ErrorCode.API_REQUEST_FAILED ∧
    (handleError (RawError.jsError m)).statusCode = 503 ∧
    (handleError (RawError.jsError n)).code = ErrorCode.API_TIMEOUT ∧
    (handleError (RawError.jsError p)).code = ErrorCode.API_AUTHENTICATION_FAILED ∧
    (handleError (RawError.jsError q)).code = ErrorCode.API_RATE_LIMIT_EXCEEDED := by
  refine ⟨?_, ?_, ?_, ?_, ?_⟩
  · simp [handleError, APIError, hm1]
  · simp [handleError, APIError, hm1]
  · simp [handleError, APIError, hn1, hn2]
  · rcases hp3 with h | h <;> simp [handleError, APIError, hp1, hp2, h]
  · rcases hq5 with h | h <;> simp [handleError, APIError, hq1, hq2, hq3, hq4, h]

/-- The invocation count of the retry loop never decreases below the
accumulator it is given. -/
lemma withRetryGo_calls_mono {σ α ε : Type} (op : Nat → σ → σ × Except ε α)
    (cond : ε → Bool) (maxA base maxD mult : Nat) :
    ∀ left attempt (st : σ) (lastErr : Option ε) (calls : Nat) (delays : List Nat),
      calls ≤ (withRetryGo op cond maxA base maxD mult
        left attempt st lastErr calls delays).calls := by
  intro left
  induction left with
  | zero => intro attempt st lastErr calls delays; exact Nat.le_refl _
  | succ n ih =>
    intro attempt st lastErr calls delays
    rcases hop : op attempt st with ⟨st', r⟩
    rcases r with e | v
    · simp only [withRetryGo, hop]
      by_cases hbrk : (attempt == maxA || !cond e) = true
      · rw [if_pos hbrk]; exact Nat.le_succ _
      · rw [if_neg hbrk]
        exact Nat.le_trans (Nat.le_succ _)
          (ih (attempt + 1) st' (some e) (calls + 1)
            (delays ++ [min (base * mult ^ (attempt - 1)) maxD]))
    · simp only [withRetryGo, hop]; exact Nat.le_succ _

/-- As soon as one loop iteration is allowed, the operation is invoked at
least once. -/
lemma withRetryGo_calls_lower {σ α ε : Type} (op : Nat → σ → σ × Except ε α)
    (cond : ε → Bool) (maxA base maxD mult : Nat)
    (left attempt : Nat) (st : σ) (lastErr : Option ε) (calls : Nat) (delays : List Nat)
    (hleft : 1 ≤ left) :
    calls + 1 ≤ (withRetryGo op cond maxA base maxD mult
      left attempt st lastErr calls delays).calls := by
  obtain ⟨n, rfl⟩ : ∃ n, left = n + 1 := ⟨left - 1, by omega⟩
  rcases hop : op attempt st with ⟨st', r⟩
  rcases r with e | v
  · simp only [withRetryGo, hop]
    by_cases hbrk : (attempt == maxA || !cond e) = true
    · rw [if_pos hbrk]
    · rw [if_neg hbrk]
      exact withRetryGo_calls_mono op cond maxA base maxD mult n (attempt + 1) st'
        (some e) (calls + 1) (delays ++ [min (base * mult ^ (attempt - 1)) maxD])
  · simp only [withRetryGo, hop]
    exact Nat.le_refl _

/-- C7: a truthy cached token with the current time strictly before its
expiry is returned with zero login calls and unchanged cache; a cache miss
followed by a successful login (non-empty token, 2xx on the first attempt)
performs exactly one login call and caches the token with expiry
`now + 3600000` ms (one hour); a second call within that hour then performs
zero login calls and returns the cached token, so the two sequential calls
issue exactly one login request in total. -/
theorem c7_token_reuse
    (st3 : TokenState) (now3 : Nat) (creds3 : Bool) (resp3 : Nat → HttpResp)
    (hhit1 : tokenTruthy st3.cachedToken = true) (hhit2 : now3 < st3.tokenExpiry)
    (st : TokenState) (now1 now2 stat : Nat) (t : String) (resp resp2 : Nat → HttpResp)
    (hmiss : tokenTruthy st.cachedToken = false ∨ st.tokenExpiry ≤ now1)
    (hresp : resp 1 = { status := stat, accessToken := some t })
    (hstat1 : 200 ≤ stat) (hstat2 : stat < 300) (ht : t ≠ "")
    (hwin : now2 < now1 + 3600000) :
    getAccessToken st3 now3 creds3 resp3
      = { result := Except.ok (st3.cachedToken.getD ""), state := st3, loginCalls := 0 } ∧
    getAccessToken st now1 true resp
      = { result := Except.ok t,
          state := { cachedToken := some t, tokenExpiry := now1 + 3600000 },
          loginCalls := 1 } ∧
    getAccessToken (getAccessToken st now1 true resp).state now2 true resp2
      = { result := Except.ok t,
          state := { cachedToken := some t, tokenExpiry := now1 + 3600000 },
          loginCalls := 0 } ∧
    (getAccessToken st now1 true resp).loginCalls
      + (getAccessToken (getAccessToken st now1 true resp).state now2 true resp2).loginCalls
      = 1 := by
  have ht' : (t == "") = false := by simpa using ht
  have hhit : getAccessToken st3 now3 creds3 resp3
      = { result := Except.ok (st3.cachedToken.getD ""), state := st3, loginCalls := 0 } := by
    simp [getAccessToken, hhit1, hhit2]
  have hcondFalse : (tokenTruthy st.cachedToken && decide (now1 < st.tokenExpiry)) = false := by
    rcases hmiss with h | h
    · simp [h]
    · simp [show ¬ now1 < st.tokenExpiry from by omega]
  have hout : withRetryPure (loginOp resp) loginRetryCondition 3 1000 8000 2
      = { result := Except.ok { status := stat, accessToken := some t },
          finalState := (), calls := 1, delays := [] } := by
    simp [withRetryPure, withRetry, withRetryGo, loginOp, hresp, hstat1, hstat2]
  have htt : tokenTruthy (some t) = true := by simp [tokenTruthy, ht']
  have h1 : getAccessToken st now1 true resp
      = { result := Except.ok t,
          state := { cachedToken := some t, tokenExpiry := now1 + 3600000 },
          loginCalls := 1 } := by
    simp only [getAccessToken]
    rw [hcondFalse]
    simp [hout, htt]
  have h2 : getAccessToken { cachedToken := some t, tokenExpiry := now1 + 3600000 } now2 true resp2
      = { result := Except.ok t,
          state := { cachedToken := some t, tokenExpiry := now1 + 3600000 },
          loginCalls := 0 } := by
    simp [getAccessToken, htt, hwin]
  refine ⟨hhit, h1, ?_, ?_⟩ <;> rw [h1] <;> simp [h2]

theorem c7_token_reuse_witness :
    getAccessToken { cachedToken := some "tok", tokenExpiry := 100 } 50 true
        (fun _ => { status := 500, accessToken := none })
      = { result := Except.ok "tok",
          state := { cachedToken := some "tok", tokenExpiry := 100 }, loginCalls := 0 } ∧
    getAccessToken { cachedToken := none, tokenExpiry := 0 } 0 true
        (fun _ => { status := 200, accessToken := some "fresh" })
      = { result := Except.ok "fresh",
          state := { cachedToken := some "fresh", tokenExpiry := 3600000 }, loginCalls := 1 } ∧
    getAccessToken
        (getAccessToken { cachedToken := none, tokenExpiry := 0 } 0 true
          (fun _ => { status := 200, accessToken := some "fresh" })).state 1000 true
        (fun _ => { status := 200, accessToken := some "other" })
      = { result := Except.ok "fresh",
          state := { cachedToken := some "fresh", tokenExpiry := 3600000 }, loginCalls := 0 } ∧
    (getAccessToken { cachedToken := none, tokenExpiry := 0 } 0 true
        (fun _ => { status := 200, accessToken := some "fresh" })).loginCalls
      + (getAccessToken
          (getAccessToken { cachedToken := none, tokenExpiry := 0 } 0 true
            (fun _ => { status := 200, accessToken := some "fresh" })).state 1000 true
          (fun _ => { status := 200, accessToken := some "other" })).loginCalls
      = 1 := by
  have h := c7_token_reuse
    { cachedToken := some "tok", tokenExpiry := 100 } 50 true
    (fun _ => { status := 500, accessToken := none })
    (by decide) (by decide)
    { cachedToken := none, tokenExpiry := 0 } 0 1000 200 "fresh"
    (fun _ => { status := 200, accessToken := some "fresh" })
    (fun _ => { status := 200, accessToken := some "other" })
    (Or.inl (by decide)) rfl (by decide) (by decide) (by decide) (by decide)
  simpa using h

/-- C8: an `authenticatedRequest` whose first attempt receives HTTP 401
invokes the operation exactly once (no retry inside the call), clears the
cached token (token absent, expiry reset to 0), and the raised failure is
the authentication-failed `AppError`, propagated as the `lastError` of the
`RetryError` that `withRetry` throws; the cleared cache is not truthy, so
every subsequent `getAccessToken` call performs at least one fresh login
request instead of reusing a cached token. -/
theorem c8_token_invalidation_on_401 (st : TokenState) (resp : Nat → Nat)
    (h401 : resp 1 = 401) (now : Nat) (resp2 : Nat → HttpResp) :
    (makeAuthenticatedRequest resp st).calls = 1 ∧
    (makeAuthenticatedRequest resp st).finalState
      = { cachedToken := none, tokenExpiry := 0 } ∧
    (makeAuthenticatedRequest resp st).result = Except.error
      { attempts := 3,
        lastError := some (JsErr.app
          { code := ErrorCode.API_AUTHENTICATION_FAILED,
            message := "Authentication token expired or invalid",
            statusCode := 401, isOperational := true }) } ∧
    tokenTruthy (makeAuthenticatedRequest resp st).finalState.cachedToken = false ∧
    1 ≤ (getAccessToken (makeAuthenticatedRequest resp st).finalState now true resp2).loginCalls := by
  have hauth : apiRetryCondition "Authentication token expired or invalid" = false := by
    decide
  have hcore : makeAuthenticatedRequest resp st
      = { result := Except.error
            { attempts := 3,
              lastError := some (JsErr.app
                { code := ErrorCode.API_AUTHENTICATION_FAILED,
                  message := "Authentication token expired or invalid",
                  statusCode := 401, isOperational := true }) },
          finalState := { cachedToken := none, tokenExpiry := 0 },
          calls := 1, delays := [] } := by
    simp [makeAuthenticatedRequest, withRetry, withRetryGo, apiOp, h401, JsErr.msg, hauth]
  have hcalls : (getAccessToken { cachedToken := none, tokenExpiry := 0 } now true resp2).loginCalls
      = (withRetryPure (loginOp resp2) loginRetryCondition 3 1000 8000 2).calls := by
    simp only [getAccessToken]
    rw [show (tokenTruthy (none : Option String)
        && decide (now < (0 : Nat))) = false from by simp [tokenTruthy]]
    rcases hres : (withRetryPure (loginOp resp2) loginRetryCondition 3 1000 8000 2).result
      with re | r
    · simp [hres]
    · simp only [Bool.false_eq_true, if_false, Bool.not_true, hres]
      by_cases htr : tokenTruthy r.accessToken = true
      · simp [htr]
      · simp [htr]
  have hlogin : 1 ≤ (getAccessToken { cachedToken := none, tokenExpiry := 0 } now true resp2).loginCalls := by
    rw [hcalls]
    have hmono := withRetryGo_calls_lower (fun i (u : Unit) => (u, loginOp resp2 i))
      loginRetryCondition 3 1000 8000 2 3 1 () none 0 [] (by omega)
    simpa [withRetryPure, withRetry] using hmono
  rw [hcore]
  exact ⟨rfl, rfl, rfl, rfl, hlogin⟩

theorem c8_token_invalidation_on_401_witness :
    (makeAuthenticatedRequest (fun _ => 401)
        { cachedToken := some "tok", tokenExpiry := 7200000 }).calls = 1 ∧
    (makeAuthenticatedRequest (fun _ => 401)
        { cachedToken := some "tok", tokenExpiry := 7200000 }).finalState
      = { cachedToken := none, tokenExpiry := 0 } ∧
    (makeAuthenticatedRequest (fun _ => 401)
        { cachedToken := some "tok", tokenExpiry := 7200000 }).result = Except.error
      { attempts := 3,
        lastError := some (JsErr.app
          { code := ErrorCode.API_AUTHENTICATION_FAILED,
            message := "Authentication token expired or invalid",
            statusCode := 401, isOperational := true }) } ∧
    tokenTruthy (makeAuthenticatedRequest (fun _ => 401)
        { cachedToken := some "tok", tokenExpiry := 7200000 }).finalState.cachedToken = false ∧
    1 ≤ (getAccessToken
        (makeAuthenticatedRequest (fun _ => 401)
          { cachedToken := some "tok", tokenExpiry := 7200000 }).finalState 0 true
        (fun _ => { status := 200, accessToken := some "fresh" })).loginCalls :=
  c8_token_invalidation_on_401 { cachedToken := some "tok", tokenExpiry := 7200000 }
    (fun _ => 401) rfl 0 (fun _ => { status := 200, accessToken := some "fresh" })

/-- The pagination loop, started at offset `270 * i`, runs through `k` full
pages and stops at the first short page, returning the accumulated items in
request order and the number of requests made. -/
lemma getPackagesLoop_spec {α : Type} (pages : Nat → List α) :
    ∀ k fuel i (acc : List α) (calls : Nat),
      (∀ j, j < k → (pages (270 * (i + j))).length = 270) →
      (pages (270 * (i + k))).length < 270 →
      k < fuel →
      getPackagesLoop pages 270 fuel (270 * i) acc calls
        = some (acc ++ pageConcat pages i (k + 1), calls + (k + 1)) := by
  intro k
  induction k with
  | zero =>
    intro fuel i acc calls _ hshort hfuel
    obtain ⟨f, rfl⟩ : ∃ f, fuel = f + 1 := ⟨fuel - 1, by omega⟩
    simp only [Nat.add_zero] at hshort
    by_cases hz : (pages (270 * i)).length = 0
    · have hnil : pages (270 * i) = [] := List.length_eq_zero.mp hz
      simp [getPackagesLoop, pageConcat, hnil]
    · have hz' : ((pages (270 * i)).length == 0) = false := by
        simp [hz]
      simp [getPackagesLoop, pageConcat, hz', hshort]
  | succ k ih =>
    intro fuel i acc calls hfull hshort hfuel
    obtain ⟨f, rfl⟩ : ∃ f, fuel = f + 1 := ⟨fuel - 1, by omega⟩
    have h0 : (pages (270 * i)).length = 270 := by
      have := hfull 0 (by omega)
      simpa using this
    have hz' : ((pages (270 * i)).length == 0) = false := by
      simp [h0]
    have hlt : ¬ (pages (270 * i)).length < 270 := by omega
    have hrec := ih f (i + 1) (acc ++ pages (270 * i)) (calls + 1)
      (fun j hj => by
        have := hfull (j + 1) (by omega)
        rwa [show i + (j + 1) = i + 1 + j from by omega] at this)
      (by rwa [show i + 1 + k = i + (k + 1) from by omega])
      (by omega)
    rw [show 270 * (i + 1) = 270 * i + 270 from by ring] at hrec
    simp only [getPackagesLoop, hz', hlt, if_false, Bool.false_eq_true]
    rw [hrec]
    simp [pageConcat, List.append_assoc, Nat.add_assoc]
    omega

/-- C9: `getPackages` requests pages of fixed size 270 at offsets 0, 270,
540, ... , accumulates every returned item in request order, and stops at
the first page with fewer than 270 items (a zero-length page included): with
`k` full pages before the first short one it makes exactly `k + 1` requests
and returns the concatenation of all pages served. -/
theorem c9_pagination_termination {α : Type} (pages : Nat → List α) (k fuel : Nat)
    (hfull : ∀ j, j < k → (pages (270 * j)).length = 270)
    (hshort : (pages (270 * k)).length < 270)
    (hfuel : k < fuel) :
    getPackages pages fuel = some (pageConcat pages 0 (k + 1), k + 1) := by
  have h := getPackagesLoop_spec pages k fuel 0 [] 0
    (fun j hj => by simpa using hfull j hj)
    (by simpa using hshort) hfuel
  simpa [getPackages] using h

def c9pages : Nat → List Nat := fun offset =>
  if offset < 540 then List.replicate 270 0
  else if offset == 540 then List.replicate 40 0
  else []

def c9empty : Nat → List Nat := fun _ => []

set_option maxRecDepth 100000 in
theorem c9_pagination_termination_witness :
    (c9pages 0).length = 270 ∧ (c9pages 270).length = 270 ∧ (c9pages 540).length = 40 ∧
    getPackages c9pages 5 = some (pageConcat c9pages 0 3, 3) ∧
    (pageConcat c9pages 0 3).length = 580 ∧
    getPackages c9empty 5 = some (pageConcat c9empty 0 1, 1) ∧
    pageConcat c9empty 0 1 = [] := by
  refine ⟨by decide, by decide, by decide, ?_, by decide, ?_, by decide⟩
  · exact c9_pagination_termination c9pages 2 5
      (by intro j hj; interval_cases j <;> decide) (by decide) (by omega)
  · exact c9_pagination_termination c9empty 0 5
      (fun j hj => absurd hj (by omega)) (by decide) (by omega)

theorem c10_classification_order_witness :
    (handleError (RawError.jsError "fetch 401")).code = ErrorCode.API_REQUEST_FAILED ∧
    (handleError (RawError.jsError "fetch 401")).statusCode = 503 ∧
    (handleError (RawError.jsError "timeout")).code = ErrorCode.API_TIMEOUT ∧
    (handleError (RawError.jsError "401")).code = ErrorCode.API_AUTHENTICATION_FAILED ∧
    (handleError (RawError.jsError "429")).code = ErrorCode.API_RATE_LIMIT_EXCEEDED :=
  c10_classification_order "fetch 401" "timeout" "401" "429"
    (by decide) (by decide) (by decide) (by decide) (by decide) (by decide)
    (Or.inl (by decide)) (by decide) (by decide) (by decide) (by decide)
    (Or.inl (by decide))
